import Mathlib

/-!
Verification development for the `llm-token-optimizer` repository
(backend relay `backend/index.js` and client `frontend/src/App.tsx`).

The backend is embedded as pure functions over an explicit oracle for the
remote language-model API: each outbound HTTP call to the remote API is
given its own `RemoteOutcome` (success with a response body, or failure),
mirroring the fact that every call can independently succeed or fail.
The client's `optimizePrompt` handler is embedded as a state-transition
function on an explicit `ClientState`, with the results of its outbound
fetches supplied as `Except`-valued parameters (a thrown JS error is the
`.error` case carrying the thrown message).

JS numbers are modelled as exact rationals (`ℚ`) where fractional cost
arithmetic occurs, token counts as `ℕ`, and differences of counts as `ℤ`.
JS truthiness tests on numbers and strings (`!prompt`, `origTokens || x`,
`data.optimizedTokens || 0`) are translated explicitly: `0` and the empty
string are falsy.
-/

namespace Backend

/-- `usage` object of a remote messages response:
`usage.input_tokens` and `usage.output_tokens`. -/
structure Usage where
  input_tokens : Nat
  output_tokens : Nat
deriving DecidableEq, Repr

/-- The parts of a remote messages-API response body that the backend reads:
`response.data.content?.[0]?.text` (absent ⇒ `none`) and
`response.data.usage` (absent ⇒ `none`). -/
structure RemoteMsg where
  contentText : Option String
  usage : Option Usage
deriving DecidableEq, Repr

/-- Outcome of one outbound call to the remote API: either a response body
or a thrown error (network failure, non-2xx, etc.) carrying a message. -/
inductive RemoteOutcome where
  | ok (r : RemoteMsg)
  | err (msg : String)
deriving DecidableEq, Repr

/-- `getTokenCount` (backend/index.js lines 27-40): posts a minimal request;
on success returns `response.data.usage?.input_tokens || 0`; on any error
falls back to `Math.ceil(prompt.length / 4)` (here `(len + 3) / 4` in `ℕ`).
It never throws: the `catch` converts every failure into the fallback. -/
def getTokenCount (prompt : String) : RemoteOutcome → Nat
  | .ok r =>
    match r.usage with
    | some u => u.input_tokens
    | none => 0
  | .err _ => (prompt.length + 3) / 4

/-- The `prompt` field of a request body as the Express handlers see it:
absent, present but not a string, or a string. -/
inductive PromptField where
  | missing
  | nonString
  | str (s : String)
deriving DecidableEq, Repr

/-- The validation test `!prompt || typeof prompt !== 'string'` shared by
both POST handlers: true exactly when the request must be rejected with 400.
The empty string is falsy in JS, so `str ""` is rejected too. -/
def promptInvalid : PromptField → Bool
  | .missing => true
  | .nonString => true
  | .str s => s == ""

/-- Response of POST /api/count_tokens. `serverError` is the handler's
`catch` branch (HTTP 500 with an error message); `badRequest` is HTTP 400. -/
inductive CountResponse where
  | ok (tokens : Nat)
  | badRequest (error : String)
  | serverError (error : String)
deriving DecidableEq, Repr

/-- POST /api/count_tokens handler (backend/index.js lines 43-57).
Returns the HTTP response together with the number of remote-API calls
performed. The handler's only awaited operation, `getTokenCount`, is total
(it catches its own failures), so the `serverError` branch is never built. -/
def countTokensHandler (p : PromptField) (o : RemoteOutcome) : CountResponse × Nat :=
  if promptInvalid p then (.badRequest "Invalid prompt provided", 0)
  else
    match p with
    | .str s => (.ok (getTokenCount s o), 1)
    | _ => (.badRequest "Invalid prompt provided", 0)

/-- Success body of POST /api/optimize_prompt as built at lines 80-86:
`originalTokens` is `usage.input_tokens` (absent when `usage` was missing,
since `undefined` is dropped from the JSON), `optimizedTokens` is a fresh
`getTokenCount` on the rewritten text, and `savings` is
`usage.input_tokens - await getTokenCount(optimized)` — a second,
independent count call (`none` models the `NaN`/null of a missing usage). -/
structure OptimizeSuccess where
  optimized : String
  usage : Option Usage
  originalTokens : Option Nat
  optimizedTokens : Nat
  savings : Option Int
deriving DecidableEq, Repr

/-- Response of POST /api/optimize_prompt: 200 body, 400, or the 500
`upstreamError` branch carrying an error and the remote detail. -/
inductive OptimizeResponse where
  | ok (r : OptimizeSuccess)
  | badRequest (error : String)
  | upstreamError (error details : String)
deriving DecidableEq, Repr

/-- POST /api/optimize_prompt handler (backend/index.js lines 60-94).
`o1` is the outcome of the optimize call, `o2` of the count call used for
`optimizedTokens` (line 84), `o3` of the separate count call used for
`savings` (line 85). Returns the HTTP response and the number of
remote-API calls performed: 0 on validation failure, 1 when the optimize
call itself fails, and 3 on success (the optimize call plus two
`getTokenCount` calls on the rewritten text). -/
def optimizePromptHandler (p : PromptField) (o1 o2 o3 : RemoteOutcome) :
    OptimizeResponse × Nat :=
  if promptInvalid p then (.badRequest "Invalid prompt provided", 0)
  else
    match p with
    | .str _ =>
      match o1 with
      | .err m => (.upstreamError "Failed to optimize prompt" m, 1)
      | .ok r =>
        let optimized := r.contentText.getD ""
        ( .ok
            { optimized := optimized
              usage := r.usage
              originalTokens := r.usage.map Usage.input_tokens
              optimizedTokens := getTokenCount optimized o2
              savings := r.usage.map
                (fun u => (u.input_tokens : Int) - (getTokenCount optimized o3 : Int)) }
        , 3 )
    | _ => (.badRequest "Invalid prompt provided", 0)

end Backend

namespace Frontend

/-- `INPUT_COST_PER_MTK` (App.tsx line 6): dollars per million input tokens. -/
def INPUT_COST_PER_MTK : ℚ := 3

/-- `OUTPUT_COST_PER_MTK` (App.tsx line 7): dollars per million output tokens. -/
def OUTPUT_COST_PER_MTK : ℚ := 15

/-- `INPUT_COST_PER_TOKEN` (App.tsx line 8). -/
def INPUT_COST_PER_TOKEN : ℚ := INPUT_COST_PER_MTK / 1000000

/-- `OUTPUT_COST_PER_TOKEN` (App.tsx line 9). -/
def OUTPUT_COST_PER_TOKEN : ℚ := OUTPUT_COST_PER_MTK / 1000000

/-- The `UsageStat` record type (App.tsx lines 11-24): one entry of the
session history. Costs are exact rationals; `savedTokens` may be negative. -/
structure UsageStat where
  timestamp : Nat
  prompt : String
  optimized : String
  origTokens : Nat
  optTokens : Nat
  inputTokens : Nat
  outputTokens : Nat
  inputCost : ℚ
  outputCost : ℚ
  totalCost : ℚ
  savedTokens : Int
  savedCost : ℚ
deriving DecidableEq, Repr

/-- The object passed to `setUsage` on success (App.tsx lines 146-154). -/
structure UsageDisplay where
  inputTokens : Nat
  outputTokens : Nat
  inputCost : ℚ
  outputCost : ℚ
  totalCost : ℚ
  savedTokens : Int
  savedCost : ℚ
deriving DecidableEq, Repr

/-- The client state touched by `optimizePrompt`: the React state hooks of
`App` (App.tsx lines 46-54). -/
structure ClientState where
  prompt : String
  origTokens : Option Nat
  optimized : String
  optTokens : Option Nat
  usage : Option UsageDisplay
  loading : Bool
  error : Option String
  sessionStats : List UsageStat
deriving DecidableEq, Repr

/-- The success body of POST /api/optimize_prompt as the client reads it
(App.tsx lines 130-143): `data.optimized`, `data.usage` (possibly absent),
and `data.optimizedTokens`. -/
structure OptData where
  optimized : String
  usage : Option Backend.Usage
  optimizedTokens : Nat
deriving DecidableEq, Repr

/-- The environment of one `optimizePrompt` invocation: the results of its
outbound operations and the current time. `countRes` is the client
`getTokenCount` fetch used when `origTokens` is falsy (line 116); `fetchRes`
is the optimize fetch, with `.error` carrying the thrown message (network
error, or `errorData.error || "Failed to optimize prompt"` on non-2xx);
`countRes2` is the extra `getTokenCount` fetch used when
`data.optimizedTokens` is falsy (line 134); `now` is `Date.now()`. -/
structure OptEnv where
  countRes : Except String Nat
  fetchRes : Except String OptData
  countRes2 : Except String Nat
  now : Nat

/-- The blank test `!prompt.trim()` of App.tsx line 104: `trim` removes
leading and trailing whitespace and the result is falsy exactly when it is
empty, i.e. exactly when every character of the prompt is whitespace. -/
def isBlank (s : String) : Bool := s.toList.all (fun c => c.isWhitespace)

/-- `optimizePrompt` (App.tsx lines 103-176) as a state transition. Every
`setX` call of the source is a field update here, in source order:
- blank prompt: set the local-validation error and return (nothing else);
- otherwise clear `error`, `optimized`, `optTokens`, `usage` and set
  `loading` before anything is awaited;
- `tc = origTokens || await getTokenCount(prompt)` (0 and null are falsy);
- any thrown error lands in the `catch`, which sets the error message;
  `setLoading(false)` always runs afterwards;
- on success, compute the costs, set the display state and append one
  `UsageStat` entry to `sessionStats` (note line 143 and line 162 use
  `data.optimizedTokens || 0`, not the possibly re-fetched count). -/
def optimizePrompt (s : ClientState) (env : OptEnv) : ClientState :=
  if isBlank s.prompt then
    { s with error := some "Please enter a prompt to optimize" }
  else
    let s0 : ClientState :=
      { s with loading := true, error := none, optimized := "",
               optTokens := none, usage := none }
    let tcRes : Except String Nat :=
      match s.origTokens with
      | some n => if n == 0 then env.countRes else .ok n
      | none => env.countRes
    match tcRes with
    | .error m => { s0 with error := some m, loading := false }
    | .ok tc =>
      let s1 : ClientState := { s0 with origTokens := some tc }
      match env.fetchRes with
      | .error m => { s1 with error := some m, loading := false }
      | .ok data =>
        if data.optimized == "" then
          { s1 with error := some "No optimized prompt received", loading := false }
        else
          let s2 : ClientState := { s1 with optimized := data.optimized }
          let otRes : Except String Nat :=
            if data.optimizedTokens == 0 then env.countRes2
            else .ok data.optimizedTokens
          match otRes with
          | .error m => { s2 with error := some m, loading := false }
          | .ok ot =>
            let inputTokens := (data.usage.map Backend.Usage.input_tokens).getD 0
            let outputTokens := (data.usage.map Backend.Usage.output_tokens).getD 0
            let inputCost : ℚ := inputTokens * INPUT_COST_PER_TOKEN
            let outputCost : ℚ := outputTokens * OUTPUT_COST_PER_TOKEN
            let totalCost : ℚ := inputCost + outputCost
            let savedTokens : Int := (tc : Int) - (data.optimizedTokens : Int)
            let savedCost : ℚ := savedTokens * INPUT_COST_PER_TOKEN
            let entry : UsageStat :=
              { timestamp := env.now
                prompt := s.prompt
                optimized := data.optimized
                origTokens := tc
                optTokens := data.optimizedTokens
                inputTokens := inputTokens
                outputTokens := outputTokens
                inputCost := inputCost
                outputCost := outputCost
                totalCost := totalCost
                savedTokens := savedTokens
                savedCost := savedCost }
            { s2 with
                optTokens := some ot
                usage := some
                  { inputTokens := inputTokens
                    outputTokens := outputTokens
                    inputCost := inputCost
                    outputCost := outputCost
                    totalCost := totalCost
                    savedTokens := savedTokens
                    savedCost := savedCost }
                sessionStats := s.sessionStats ++ [entry]
                loading := false }

/-- `usageGraphData` (App.tsx lines 184-187): for each record index `i`
(0-based), the point `(i + 1, running sum of totalCost over records 0..i)`,
the `reduce` being a left fold starting from 0. -/
def usageGraphData (stats : List UsageStat) : List (Nat × ℚ) :=
  stats.mapIdx (fun i _ =>
    (i + 1, ((stats.take (i + 1)).map UsageStat.totalCost).foldl (· + ·) 0))

/-- State of the live token-counting loop (App.tsx lines 72-90): the
displayed count (`origTokens`), the text of the currently pending debounce
timer if any, and the list of count requests actually issued, in order
(a request's id is its index in `issued`). -/
structure LiveState where
  displayedCount : Option Nat
  pendingTimer : Option String
  issued : List String
deriving DecidableEq, Repr

/-- Events of the live-counting loop: an edit of the prompt (the effect
re-runs: its cleanup clears any pending timer first), the pending debounce
timer firing (which issues the count request), and the arrival of the
response to a previously issued request. -/
inductive LiveEvent where
  | edit (text : String)
  | timerFire
  | response (reqId : Nat) (value : Nat)
deriving DecidableEq, Repr

/-- One step of the live-counting loop, from App.tsx lines 72-90:
- `edit t`: the effect's cleanup cancels the pending timer; with empty text
  the effect clears the displayed count and schedules nothing (lines 73-76),
  otherwise it schedules a new timer for the current text;
- `timerFire`: the pending request is issued for the scheduled text;
- `response i v`: the continuation after `await getTokenCount(prompt)` runs
  `setOrigTokens(tc)` unconditionally — the source has no check that the
  response belongs to the latest issued request, so any response of an
  issued request overwrites the displayed count. -/
def liveStep (s : LiveState) : LiveEvent → LiveState
  | .edit t =>
    if t == "" then { s with pendingTimer := none, displayedCount := none }
    else { s with pendingTimer := some t }
  | .timerFire =>
    match s.pendingTimer with
    | none => s
    | some t => { s with pendingTimer := none, issued := s.issued ++ [t] }
  | .response reqId v =>
    if reqId < s.issued.length then { s with displayedCount := some v } else s

/-- Folding `liveStep` over a list of events. -/
def liveRun (s : LiveState) (es : List LiveEvent) : LiveState :=
  es.foldl liveStep s

end Frontend

namespace Frontend

/-- JSON documents, the common serialization format of the export file and
the persisted history (`JSON.stringify` / `JSON.parse` are the platform's
mutually inverse maps between these values and text; the repository's code
is modelled at the level of the parsed values). -/
inductive Json where
  | null
  | str (s : String)
  | num (q : ℚ)
  | bool (b : Bool)
  | arr (xs : List Json)
  | obj (fields : List (String × Json))

/-- The JSON value of one `UsageStat`, field for field in declaration order:
what `JSON.stringify` serializes for one record (App.tsx lines 157-170). -/
def encodeStat (e : UsageStat) : Json :=
  .obj [("timestamp", .num e.timestamp),
        ("prompt", .str e.prompt),
        ("optimized", .str e.optimized),
        ("origTokens", .num e.origTokens),
        ("optTokens", .num e.optTokens),
        ("inputTokens", .num e.inputTokens),
        ("outputTokens", .num e.outputTokens),
        ("inputCost", .num e.inputCost),
        ("outputCost", .num e.outputCost),
        ("totalCost", .num e.totalCost),
        ("savedTokens", .num e.savedTokens),
        ("savedCost", .num e.savedCost)]

/-- `handleExportHistory` (App.tsx lines 195-204): the exported document is
the serialization of the whole `sessionStats` array. -/
def handleExportHistory (stats : List UsageStat) : Json :=
  .arr (stats.map encodeStat)

/-- Reads a JSON value as a natural number (a JS number that is a
non-negative integer). -/
def jsonNat : Option Json → Option Nat
  | some (.num q) => if q.den = 1 ∧ 0 ≤ q.num then some q.num.toNat else none
  | _ => none

/-- Reads a JSON value as an integer JS number. -/
def jsonInt : Option Json → Option Int
  | some (.num q) => if q.den = 1 then some q.num else none
  | _ => none

/-- Reads a JSON value as a JS number. -/
def jsonRat : Option Json → Option ℚ
  | some (.num q) => some q
  | _ => none

/-- Reads a JSON value as a string. -/
def jsonStr : Option Json → Option String
  | some (.str s) => some s
  | _ => none

/-- Interpretation of a parsed JSON object as a `UsageStat`, reading the
named fields the way the client consumes records (`loadUsageHistory`,
App.tsx lines 31-39, returns `JSON.parse` of the stored text and the rest
of the client reads these fields off each element). -/
def decodeStat : Json → Option UsageStat
  | .obj fs => do
    let timestamp ← jsonNat (fs.lookup "timestamp")
    let prompt ← jsonStr (fs.lookup "prompt")
    let optimized ← jsonStr (fs.lookup "optimized")
    let origTokens ← jsonNat (fs.lookup "origTokens")
    let optTokens ← jsonNat (fs.lookup "optTokens")
    let inputTokens ← jsonNat (fs.lookup "inputTokens")
    let outputTokens ← jsonNat (fs.lookup "outputTokens")
    let inputCost ← jsonRat (fs.lookup "inputCost")
    let outputCost ← jsonRat (fs.lookup "outputCost")
    let totalCost ← jsonRat (fs.lookup "totalCost")
    let savedTokens ← jsonInt (fs.lookup "savedTokens")
    let savedCost ← jsonRat (fs.lookup "savedCost")
    pure
      { timestamp := timestamp, prompt := prompt, optimized := optimized
        origTokens := origTokens, optTokens := optTokens
        inputTokens := inputTokens, outputTokens := outputTokens
        inputCost := inputCost, outputCost := outputCost
        totalCost := totalCost, savedTokens := savedTokens
        savedCost := savedCost }
  | _ => none

/-- The deserialization used at startup, at the level of parsed documents:
a parsed export document is read back as the array of its records. -/
def decodeHistory : Json → Option (List UsageStat)
  | .arr xs => xs.mapM decodeStat
  | _ => none

end Frontend

/-- The backend fallback `Math.ceil(prompt.length / 4)`, computed in `ℕ` as
`(n + 3) / 4`, is the rational ceiling of `n / 4`. -/
theorem ceil_div_four (n : ℕ) : ⌈(n : ℚ) / 4⌉ = (((n + 3) / 4 : ℕ) : ℤ) := by
  set k : ℕ := (n + 3) / 4 with hk
  have h1 : n ≤ 4 * k := by omega
  have h2 : 4 * k < n + 4 := by omega
  have h1q : (n : ℚ) ≤ 4 * (k : ℚ) := by exact_mod_cast h1
  have h2q : 4 * (k : ℚ) < (n : ℚ) + 4 := by exact_mod_cast h2
  rw [Int.ceil_eq_iff]
  refine ⟨?_, ?_⟩
  · rw [lt_div_iff₀ (by norm_num : (0 : ℚ) < 4)]
    push_cast
    linarith
  · rw [div_le_iff₀ (by norm_num : (0 : ℚ) < 4)]
    push_cast
    linarith

/-- C1: for every non-empty string prompt, POST /api/count_tokens succeeds:
it returns HTTP 200 with the (`ℕ`-valued, hence non-negative) result of
`getTokenCount` after exactly one remote call, and never reaches the 500
branch; when the remote call fails, the returned count is the deterministic
local fallback, which equals `ceil(length / 4)`. -/
theorem count_tokens_never_fails (s : String) (o : Backend.RemoteOutcome) (m : String)
    (h : s ≠ "") :
    Backend.countTokensHandler (.str s) o
      = (.ok (Backend.getTokenCount s o), 1) ∧
    (∀ e, (Backend.countTokensHandler (.str s) o).1 ≠ .serverError e) ∧
    Backend.getTokenCount s (.err m) = (s.length + 3) / 4 ∧
    (((s.length + 3) / 4 : ℕ) : ℤ) = ⌈(s.length : ℚ) / 4⌉ := by
  have hb : (s == "") = false := beq_eq_false_iff_ne.mpr h
  have h1 : Backend.countTokensHandler (.str s) o
      = (.ok (Backend.getTokenCount s o), 1) := by
    simp [Backend.countTokensHandler, Backend.promptInvalid, hb]
  refine ⟨h1, ?_, rfl, (ceil_div_four s.length).symm⟩
  intro e
  rw [h1]
  simp

/-- Witness for C1 at the concrete prompt "hello" with a failing remote
call: the handler returns 200 with the fallback count `ceil(5 / 4) = 2`. -/
theorem count_tokens_never_fails_witness :
    Backend.countTokensHandler (.str "hello") (.err "boom")
      = (.ok (Backend.getTokenCount "hello" (.err "boom")), 1) ∧
    Backend.getTokenCount "hello" (.err "boom") = 2 :=
  ⟨(count_tokens_never_fails "hello" (.err "boom") "boom" (by decide)).1, by decide⟩

/-- C10: the empty-string prompt is rejected by both POST handlers with the
same 400 response as a missing or non-string prompt field (the validation
tests JS falsiness, and `""` is falsy); no remote call is made (second
component 0) and no token count is returned. -/
theorem empty_prompt_rejected (o o1 o2 o3 : Backend.RemoteOutcome) :
    Backend.countTokensHandler (.str "") o
      = (.badRequest "Invalid prompt provided", 0) ∧
    Backend.optimizePromptHandler (.str "") o1 o2 o3
      = (.badRequest "Invalid prompt provided", 0) ∧
    Backend.countTokensHandler .missing o = Backend.countTokensHandler (.str "") o ∧
    Backend.countTokensHandler .nonString o = Backend.countTokensHandler (.str "") o ∧
    Backend.optimizePromptHandler .missing o1 o2 o3
      = Backend.optimizePromptHandler (.str "") o1 o2 o3 ∧
    Backend.optimizePromptHandler .nonString o1 o2 o3
      = Backend.optimizePromptHandler (.str "") o1 o2 o3 :=
  ⟨rfl, rfl, rfl, rfl, rfl, rfl⟩

/-- C9 counterexample: a concrete successful optimize relay call performs
three remote-API calls (the second component of the handler result), not
two: lines 84 and 85 of backend/index.js each invoke `getTokenCount` on
the rewritten text. -/
theorem optimize_two_calls_counterexample :
    Backend.optimizePromptHandler (.str "hi")
        (.ok ⟨some "short", some ⟨10, 5⟩⟩)
        (.ok ⟨none, some ⟨7, 0⟩⟩) (.ok ⟨none, some ⟨7, 0⟩⟩)
      = (.ok ⟨"short", some ⟨10, 5⟩, some 10, 7, some 3⟩, 3) ∧
    (3 : ℕ) ≠ 2 := by
  exact ⟨rfl, by decide⟩

/-- C9 amended: every successful Optimize Prompt relay call performs
exactly three priced remote-API operations — the optimize call itself and
two follow-up Count Tokens calls on the rewritten text (one for the
`optimizedTokens` field, an independent one for the `savings` field). -/
theorem optimize_success_three_calls (s : String) (r : Backend.RemoteMsg)
    (o2 o3 : Backend.RemoteOutcome) (h : s ≠ "") :
    (Backend.optimizePromptHandler (.str s) (.ok r) o2 o3).2 = 3 ∧
    (Backend.optimizePromptHandler (.str s) (.ok r) o2 o3).1
      = .ok ⟨r.contentText.getD "", r.usage,
             r.usage.map Backend.Usage.input_tokens,
             Backend.getTokenCount (r.contentText.getD "") o2,
             r.usage.map (fun u => (u.input_tokens : ℤ)
               - (Backend.getTokenCount (r.contentText.getD "") o3 : ℤ))⟩ := by
  have hb : (s == "") = false := beq_eq_false_iff_ne.mpr h
  constructor <;> simp [Backend.optimizePromptHandler, Backend.promptInvalid, hb]

/-- Witness for the amended C9 at a concrete successful call: three remote
operations are performed. -/
theorem optimize_success_three_calls_witness :
    (Backend.optimizePromptHandler (.str "hi")
        (.ok ⟨some "ok", some ⟨4, 2⟩⟩) (.err "a") (.err "b")).2 = 3 :=
  (optimize_success_three_calls "hi" ⟨some "ok", some ⟨4, 2⟩⟩ (.err "a") (.err "b")
    (by decide)).1

/-- C4 counterexample: the optimize call succeeds with billed input_tokens
100 and rewritten text "okay"; the count call for `optimizedTokens` returns
10, but the separate count call used for `savings` fails and falls back to
`ceil(4 / 4) = 1`. The response then has `optimizedTokens = 10` and
`savings = 100 - 1 = 99`, while the claim demands `100 - 10 = 90`. -/
theorem optimize_savings_counterexample :
    (Backend.optimizePromptHandler (.str "hi")
        (.ok ⟨some "okay", some ⟨100, 5⟩⟩)
        (.ok ⟨none, some ⟨10, 1⟩⟩) (.err "boom")).1
      = .ok ⟨"okay", some ⟨100, 5⟩, some 100, 10, some 99⟩ ∧
    some (99 : ℤ) ≠ some ((100 : ℤ) - 10) := by
  exact ⟨rfl, by decide⟩

/-- C4 amended: on every successful Optimize Prompt relay call with billed
usage present, `originalTokens` equals the billed `usage.input_tokens` and
`optimizedTokens` equals Count Tokens applied to the rewritten text; but
`savings` equals `usage.input_tokens` minus a second, independent Count
Tokens call on the rewritten text, so `savings = originalTokens -
optimizedTokens` holds exactly when the two count calls return the same
value. -/
theorem optimize_response_field_relations (s : String) (ct : Option String)
    (u : Backend.Usage) (o2 o3 : Backend.RemoteOutcome) (h : s ≠ "") :
    (Backend.optimizePromptHandler (.str s) (.ok ⟨ct, some u⟩) o2 o3).1
      = .ok ⟨ct.getD "", some u, some u.input_tokens,
             Backend.getTokenCount (ct.getD "") o2,
             some ((u.input_tokens : ℤ)
               - (Backend.getTokenCount (ct.getD "") o3 : ℤ))⟩ ∧
    (Backend.getTokenCount (ct.getD "") o2 = Backend.getTokenCount (ct.getD "") o3 →
      some ((u.input_tokens : ℤ) - (Backend.getTokenCount (ct.getD "") o3 : ℤ))
        = some ((u.input_tokens : ℤ)
            - (Backend.getTokenCount (ct.getD "") o2 : ℤ))) := by
  have hb : (s == "") = false := beq_eq_false_iff_ne.mpr h
  refine ⟨?_, fun he => by rw [he]⟩
  simp [Backend.optimizePromptHandler, Backend.promptInvalid, hb]

/-- Witness for the amended C4 at concrete inputs where the two count calls
agree (both fail, falling back to `ceil(1 / 4) = 1`), so the response is
fully determined: originalTokens 8, optimizedTokens 1, savings 7. -/
theorem optimize_response_field_relations_witness :
    (Backend.optimizePromptHandler (.str "hey") (.ok ⟨some "w", some ⟨8, 3⟩⟩)
        (.err "x") (.err "x")).1
      = .ok ⟨"w", some ⟨8, 3⟩, some 8, 1, some 7⟩ := by
  have h := (optimize_response_field_relations "hey" (some "w") ⟨8, 3⟩
    (.err "x") (.err "x") (by decide)).1
  exact h

/-- C3 counterexample: with prior state showing a previous optimization
(`optimized = "previous"`, `optTokens = some 5`), a failing relay call
surfaces the error and appends nothing, but the prior display state is NOT
left untouched: `optimizePrompt` clears `optimized`, `optTokens` and
`usage` before awaiting anything (App.tsx lines 111-113), so after the
failure `optimized` is `""`, not `"previous"`. -/
theorem optimize_failure_counterexample :
    (Frontend.optimizePrompt
        ⟨"hi", some 3, "previous", some 5, none, false, none, []⟩
        ⟨.ok 3, .error "Failed to optimize prompt", .ok 1, 0⟩).error
      = some "Failed to optimize prompt" ∧
    (Frontend.optimizePrompt
        ⟨"hi", some 3, "previous", some 5, none, false, none, []⟩
        ⟨.ok 3, .error "Failed to optimize prompt", .ok 1, 0⟩).sessionStats = [] ∧
    (Frontend.optimizePrompt
        ⟨"hi", some 3, "previous", some 5, none, false, none, []⟩
        ⟨.ok 3, .error "Failed to optimize prompt", .ok 1, 0⟩).optimized = "" ∧
    "previous" ≠ "" := by
  refine ⟨rfl, rfl, rfl, by decide⟩

/-- C3 amended: on every failing invocation of the client optimize
operation (local validation failure, relay error, missing optimized text,
or a failing follow-up count) an error message is surfaced and no record is
appended — `sessionStats` and the prompt are untouched — but the transient
display state (`optimized`, `optTokens`, `usage`) is cleared at the start
of the attempt rather than left untouched, and `origTokens` may be
refreshed. -/
theorem optimize_failure_preserves_history (s : Frontend.ClientState)
    (env : Frontend.OptEnv) (h : (Frontend.optimizePrompt s env).error ≠ none) :
    (Frontend.optimizePrompt s env).sessionStats = s.sessionStats ∧
    (Frontend.optimizePrompt s env).prompt = s.prompt := by
  revert h
  unfold Frontend.optimizePrompt
  dsimp only
  repeat' split
  all_goals intro h
  all_goals simp_all

/-- Witness for the amended C3: a concrete failing invocation (the first
count fetch throws) surfaces the error and leaves the history empty. -/
theorem optimize_failure_preserves_history_witness :
    (Frontend.optimizePrompt
        ⟨"yo", none, "", none, none, false, none, []⟩
        ⟨.error "network down", .error "x", .ok 1, 0⟩).sessionStats = [] :=
  (optimize_failure_preserves_history
      ⟨"yo", none, "", none, none, false, none, []⟩
      ⟨.error "network down", .error "x", .ok 1, 0⟩ (by decide)).1

/-- C7: evaluation of the live-counting loop at the failing trace. First
conjunct: the user types "aaaa", the debounce expires and request 0 is
issued; the user then types "bbbbbbbb" and request 1 — the latest — is
issued; the response to request 1 (42) arrives first and is displayed, then
the slow stale response to request 0 (7) arrives and overwrites it, because
`setOrigTokens(tc)` is applied unconditionally (no request-generation
check exists in App.tsx lines 78-87). Third conjunct: the debounce half of
the claim at a concrete trace — three rapid edits followed by one timer
expiry issue exactly one request, for the final text. -/
theorem stale_response_overwrites :
    Frontend.liveRun ⟨none, none, []⟩
        [.edit "aaaa", .timerFire, .edit "bbbbbbbb", .timerFire,
         .response 1 42, .response 0 7]
      = ⟨some 7, none, ["aaaa", "bbbbbbbb"]⟩ ∧
    (some 7 : Option Nat) ≠ some 42 ∧
    Frontend.liveRun ⟨none, none, []⟩
        [.edit "a", .edit "ab", .edit "abc", .timerFire]
      = ⟨none, none, ["abc"]⟩ := by
  refine ⟨rfl, by decide, rfl⟩

/-- Decoding inverts encoding on a single history record. -/
theorem decodeStat_encodeStat (e : Frontend.UsageStat) :
    Frontend.decodeStat (Frontend.encodeStat e) = some e := by
  simp [Frontend.decodeStat, Frontend.encodeStat, Frontend.jsonNat,
    Frontend.jsonStr, Frontend.jsonRat, Frontend.jsonInt, List.lookup]

/-- C6: the export operation serializes the in-memory history to a document
whose parsed content is exactly that history — loading it back with the
startup deserialization reproduces the identical record sequence. -/
theorem export_roundtrip (h : List Frontend.UsageStat) :
    Frontend.decodeHistory (Frontend.handleExportHistory h) = some h := by
  induction h with
  | nil => rfl
  | cons e t ih =>
    simp only [Frontend.handleExportHistory, Frontend.decodeHistory,
      List.map_cons, List.mapM_cons, decodeStat_encodeStat,
      Option.bind_eq_bind, Option.some_bind] at ih ⊢
    rw [ih]
    rfl

/-- C2: on every successful optimize operation the appended record has
input cost = billed input tokens × (3.00 / 1,000,000), output cost =
billed output tokens × (15.00 / 1,000,000) and total cost = their sum
(the stored `totalCost` is literally `inputCost + outputCost`); for
`input_tokens = 100` and `output_tokens = 50` the three costs are exactly
3/10000 = $0.0003, 75/100000 = $0.00075 and 105/100000 = $0.00105. -/
theorem optimize_cost_formulas (s : Frontend.ClientState) (env : Frontend.OptEnv)
    (data : Frontend.OptData) (u : Backend.Usage) (tc : Nat)
    (hblank : Frontend.isBlank s.prompt = false)
    (horig : s.origTokens = some tc) (htc : tc ≠ 0)
    (hfetch : env.fetchRes = .ok data)
    (hopt : data.optimized ≠ "")
    (husage : data.usage = some u)
    (hot : data.optimizedTokens ≠ 0) :
    (Frontend.optimizePrompt s env).sessionStats = s.sessionStats ++
      [{ timestamp := env.now
         prompt := s.prompt
         optimized := data.optimized
         origTokens := tc
         optTokens := data.optimizedTokens
         inputTokens := u.input_tokens
         outputTokens := u.output_tokens
         inputCost := (u.input_tokens : ℚ) * Frontend.INPUT_COST_PER_TOKEN
         outputCost := (u.output_tokens : ℚ) * Frontend.OUTPUT_COST_PER_TOKEN
         totalCost := (u.input_tokens : ℚ) * Frontend.INPUT_COST_PER_TOKEN
           + (u.output_tokens : ℚ) * Frontend.OUTPUT_COST_PER_TOKEN
         savedTokens := (tc : ℤ) - (data.optimizedTokens : ℤ)
         savedCost := (((tc : ℤ) - (data.optimizedTokens : ℤ) : ℤ) : ℚ)
           * Frontend.INPUT_COST_PER_TOKEN }] ∧
    Frontend.INPUT_COST_PER_TOKEN = 3 / 1000000 ∧
    Frontend.OUTPUT_COST_PER_TOKEN = 15 / 1000000 ∧
    (u.input_tokens = 100 → u.output_tokens = 50 →
      (u.input_tokens : ℚ) * Frontend.INPUT_COST_PER_TOKEN = 3 / 10000 ∧
      (u.output_tokens : ℚ) * Frontend.OUTPUT_COST_PER_TOKEN = 75 / 100000 ∧
      (u.input_tokens : ℚ) * Frontend.INPUT_COST_PER_TOKEN
        + (u.output_tokens : ℚ) * Frontend.OUTPUT_COST_PER_TOKEN
        = 105 / 100000) := by
  have hb0 : (tc == 0) = false := beq_eq_false_iff_ne.mpr htc
  have hb1 : (data.optimized == "") = false := beq_eq_false_iff_ne.mpr hopt
  have hb2 : (data.optimizedTokens == 0) = false := beq_eq_false_iff_ne.mpr hot
  refine ⟨?_, rfl, rfl, ?_⟩
  · simp [Frontend.optimizePrompt, hblank, horig, hb0, hfetch, hb1, hb2, husage]
  · intro h100 h50
    rw [h100, h50]
    norm_num [Frontend.INPUT_COST_PER_TOKEN, Frontend.OUTPUT_COST_PER_TOKEN,
      Frontend.INPUT_COST_PER_MTK, Frontend.OUTPUT_COST_PER_MTK]

/-- Witness for C2: a concrete successful run with billed usage 100/50
appends exactly one record with the exact costs $0.0003, $0.00075, $0.00105
and `totalCost = inputCost + outputCost`. -/
theorem optimize_cost_formulas_witness :
    (Frontend.optimizePrompt
        ⟨"write a poem", some 120, "", none, none, false, none, []⟩
        ⟨.ok 120, .ok ⟨"poem", some ⟨100, 50⟩, 75⟩, .ok 75, 42⟩).sessionStats
      = [{ timestamp := 42, prompt := "write a poem", optimized := "poem",
           origTokens := 120, optTokens := 75, inputTokens := 100,
           outputTokens := 50, inputCost := 3 / 10000,
           outputCost := 75 / 100000,
           totalCost := 3 / 10000 + 75 / 100000, savedTokens := 45,
           savedCost := 45 * (3 / 1000000) }] := by
  have h := optimize_cost_formulas
    ⟨"write a poem", some 120, "", none, none, false, none, []⟩
    ⟨.ok 120, .ok ⟨"poem", some ⟨100, 50⟩, 75⟩, .ok 75, 42⟩
    ⟨"poem", some ⟨100, 50⟩, 75⟩ ⟨100, 50⟩ 120
    (by decide) rfl (by decide) rfl (by decide) rfl (by decide)
  rw [h.1]
  norm_num [Frontend.INPUT_COST_PER_TOKEN, Frontend.OUTPUT_COST_PER_TOKEN,
    Frontend.INPUT_COST_PER_MTK, Frontend.OUTPUT_COST_PER_MTK]

/-- C8: on every successful optimize operation exactly one record is
appended and it satisfies `savedTokens = origTokens - optTokens` (as an
integer, negative when optimization increased length) and
`savedCost = savedTokens × input price`; the formulas are the same
unconditional expressions whatever the sign of the difference — there is
no special-casing in App.tsx lines 143-144. -/
theorem optimize_saved_tokens_formula (s : Frontend.ClientState)
    (env : Frontend.OptEnv) (data : Frontend.OptData) (tc : Nat)
    (hblank : Frontend.isBlank s.prompt = false)
    (horig : s.origTokens = some tc) (htc : tc ≠ 0)
    (hfetch : env.fetchRes = .ok data)
    (hopt : data.optimized ≠ "")
    (hot : data.optimizedTokens ≠ 0) :
    (Frontend.optimizePrompt s env).sessionStats.length
      = s.sessionStats.length + 1 ∧
    ((Frontend.optimizePrompt s env).sessionStats.getLast?).map
        (fun e => (e.savedTokens, e.savedCost, e.origTokens, e.optTokens))
      = some ((tc : ℤ) - (data.optimizedTokens : ℤ),
              (((tc : ℤ) - (data.optimizedTokens : ℤ) : ℤ) : ℚ)
                * Frontend.INPUT_COST_PER_TOKEN,
              tc, data.optimizedTokens) := by
  have hb0 : (tc == 0) = false := beq_eq_false_iff_ne.mpr htc
  have hb1 : (data.optimized == "") = false := beq_eq_false_iff_ne.mpr hopt
  have hb2 : (data.optimizedTokens == 0) = false := beq_eq_false_iff_ne.mpr hot
  refine ⟨?_, ?_⟩ <;>
    simp [Frontend.optimizePrompt, hblank, horig, hb0, hfetch, hb1, hb2]

/-- Witness for C8 at a run where optimization increased length (original
count 5, optimized count 9): `savedTokens = 5 - 9 < 0` and `savedCost` is
computed by the very same formula. -/
theorem optimize_saved_tokens_formula_witness :
    ((Frontend.optimizePrompt
        ⟨"hi", some 5, "", none, none, false, none, []⟩
        ⟨.ok 5, .ok ⟨"a longer rewrite", some ⟨5, 9⟩, 9⟩,
         .ok 9, 7⟩).sessionStats.getLast?).map
        (fun e => (e.savedTokens, e.savedCost, e.origTokens, e.optTokens))
      = some ((5 : ℤ) - (9 : ℤ),
              (((5 : ℤ) - (9 : ℤ) : ℤ) : ℚ) * Frontend.INPUT_COST_PER_TOKEN,
              5, 9) ∧
    (5 : ℤ) - 9 < 0 :=
  ⟨(optimize_saved_tokens_formula
      ⟨"hi", some 5, "", none, none, false, none, []⟩
      ⟨.ok 5, .ok ⟨"a longer rewrite", some ⟨5, 9⟩, 9⟩, .ok 9, 7⟩
      ⟨"a longer rewrite", some ⟨5, 9⟩, 9⟩ 5
      (by decide) rfl (by decide) rfl (by decide) (by decide)).2, by decide⟩

/-- The `reduce((sum, e) => sum + e.totalCost, 0)` of the source is a left
fold from 0, which is the list sum. -/
theorem foldl_add_sum (l : List ℚ) : l.foldl (· + ·) 0 = l.sum := by
  rw [List.sum_eq_foldl]

/-- Prefix sums of a list of non-negative rationals are monotone in the
prefix length. -/
theorem sum_take_mono (l : List ℚ) (hnn : ∀ x ∈ l, 0 ≤ x) (i j : ℕ)
    (hij : i ≤ j) : (l.take i).sum ≤ (l.take j).sum := by
  have hsplit : l.take j = l.take i ++ (l.drop i).take (j - i) := by
    rw [← List.take_add]
    congr 1
    omega
  rw [hsplit, List.sum_append]
  have hpos : 0 ≤ ((l.drop i).take (j - i)).sum :=
    List.sum_nonneg fun x hx =>
      hnn x (List.drop_subset i l (List.take_subset _ _ hx))
  linarith

/-- C5: for a history of N records, the cumulative-cost series has length
N, its i-th point is `(i + 1, sum of totalCost over records 0..i)`, and
whenever every record's total cost is non-negative the series values are
non-decreasing. -/
theorem usage_graph_series (stats : List Frontend.UsageStat) :
    (Frontend.usageGraphData stats).length = stats.length ∧
    (∀ i, i < stats.length →
      (Frontend.usageGraphData stats)[i]?
        = some (i + 1,
            ((stats.take (i + 1)).map Frontend.UsageStat.totalCost).sum)) ∧
    ((∀ e ∈ stats, 0 ≤ e.totalCost) →
      ∀ (i j : ℕ) (p q : ℕ × ℚ), i ≤ j →
        (Frontend.usageGraphData stats)[i]? = some p →
        (Frontend.usageGraphData stats)[j]? = some q →
        p.2 ≤ q.2) := by
  have hlen : (Frontend.usageGraphData stats).length = stats.length := by
    simp [Frontend.usageGraphData]
  have hidx : ∀ i, i < stats.length →
      (Frontend.usageGraphData stats)[i]?
        = some (i + 1,
            ((stats.take (i + 1)).map Frontend.UsageStat.totalCost).sum) := by
    intro i hi
    unfold Frontend.usageGraphData
    rw [List.getElem?_eq_getElem (by simpa using hi)]
    simp [List.getElem_mapIdx, foldl_add_sum]
  refine ⟨hlen, hidx, ?_⟩
  intro hnn i j p q hij hp hq
  have hj : j < stats.length := by
    by_contra hjn
    rw [List.getElem?_eq_none (by rw [hlen]; omega)] at hq
    exact Option.noConfusion hq
  have hi : i < stats.length := lt_of_le_of_lt hij hj
  rw [hidx i hi] at hp
  rw [hidx j hj] at hq
  obtain rfl : p = (i + 1,
      ((stats.take (i + 1)).map Frontend.UsageStat.totalCost).sum) := by
    simpa using hp.symm
  obtain rfl : q = (j + 1,
      ((stats.take (j + 1)).map Frontend.UsageStat.totalCost).sum) := by
    simpa using hq.symm
  simp only [List.map_take]
  exact sum_take_mono (stats.map Frontend.UsageStat.totalCost)
    (fun x hx => by
      obtain ⟨e, he, rfl⟩ := List.mem_map.mp hx
      exact hnn e he)
    (i + 1) (j + 1) (by omega)

/-- Witness for C5 on a concrete two-record history with total costs 1 and
2: the series points and the non-decrease between them. -/
theorem usage_graph_series_witness :
    (Frontend.usageGraphData
        [⟨0, "", "", 0, 0, 0, 0, 0, 0, 1, 0, 0⟩,
         ⟨0, "", "", 0, 0, 0, 0, 0, 0, 2, 0, 0⟩])[1]?
      = some (2, (([(⟨0, "", "", 0, 0, 0, 0, 0, 0, 1, 0, 0⟩ : Frontend.UsageStat),
                    ⟨0, "", "", 0, 0, 0, 0, 0, 0, 2, 0, 0⟩].take 2).map
          Frontend.UsageStat.totalCost).sum) ∧
    (([(⟨0, "", "", 0, 0, 0, 0, 0, 0, 1, 0, 0⟩ : Frontend.UsageStat),
       ⟨0, "", "", 0, 0, 0, 0, 0, 0, 2, 0, 0⟩].take 1).map
          Frontend.UsageStat.totalCost).sum
      ≤ (([(⟨0, "", "", 0, 0, 0, 0, 0, 0, 1, 0, 0⟩ : Frontend.UsageStat),
           ⟨0, "", "", 0, 0, 0, 0, 0, 0, 2, 0, 0⟩].take 2).map
          Frontend.UsageStat.totalCost).sum := by
  have h := usage_graph_series
    [⟨0, "", "", 0, 0, 0, 0, 0, 0, 1, 0, 0⟩,
     ⟨0, "", "", 0, 0, 0, 0, 0, 0, 2, 0, 0⟩]
  exact ⟨h.2.1 1 (by decide),
    h.2.2 (by decide) 0 1 _ _ (by decide)
      (h.2.1 0 (by decide)) (h.2.1 1 (by decide))⟩
